import Mathlib

/-!
Verification of the BasicBot trading gateway (basic_bot.py).

The gateway is shallowly embedded: Python values flowing through requests
and responses are modelled by the JSON-like type `Value`; Python dict
literals, in which a later duplicate key silently overwrites the value of
an earlier one, are modelled by `pyDict`; Python exceptions raised and
caught inside an operation are modelled by `Except String`; the wall-clock
timestamp `datetime.now().isoformat()` is an explicit `now : String`
parameter; the live Binance client is an explicit `Backend` oracle taking
the request parameter dict and either returning a response payload or
failing (a raised provider or transport exception). Numeric quantities and
prices are modelled by the rationals.
-/

namespace BasicBot

/-- JSON-like values appearing in request and response payloads. -/
inductive Value where
  | str (s : String)
  | int (n : Int)
  | rat (q : ℚ)
  | null
  | dict (entries : List (String × Value))
  | vlist (vs : List Value)

/-- A Python dict, as an insertion-ordered association list. -/
abbrev Entries := List (String × Value)

/-- Assignment `d[k] = v`: replace the value at key `k` keeping its
position if present, otherwise append the new entry at the end. -/
def setKey : Entries → String → Value → Entries
  | [], k, v => [(k, v)]
  | (k₀, v₀) :: rest, k, v =>
      if k₀ = k then (k₀, v) :: rest else (k₀, v₀) :: setKey rest k v

/-- A Python dict literal: entries are evaluated left to right, and a later
duplicate key overwrites the value of an earlier one (the key keeps its
first position). -/
def pyDict (entries : Entries) : Entries :=
  entries.foldl (fun d kv => setKey d kv.1 kv.2) []

/-- Lookup of a key in a dict. -/
def lookupKey : Entries → String → Option Value
  | [], _ => Option.none
  | (k₀, v) :: rest, k => if k₀ = k then some v else lookupKey rest k

/-- Python `d.get(k)`: the value at `k`, or None when absent. -/
def dictGet (d : Entries) (k : String) : Value :=
  (lookupKey d k).getD Value.null

/-- Python `d.get(k, dflt)`. -/
def dictGetD (d : Entries) (k : String) (dflt : Value) : Value :=
  (lookupKey d k).getD dflt

/-- Python `s.upper()` (the sources only use ASCII symbols and sides). -/
def pyUpper (s : String) : String := String.mk (s.data.map Char.toUpper)

/-- Python `s.strip()`: drop leading and trailing whitespace. -/
def pyStrip (s : String) : String :=
  String.mk ((((s.data.dropWhile Char.isWhitespace).reverse).dropWhile
    Char.isWhitespace).reverse)

/-- Python `s.endswith(suffix)`. -/
def pyEndsWith (s suffix : String) : Bool := suffix.data.isSuffixOf s.data

/-- BasicBot validate symbol: reject the empty string, uppercase and
strip, then require the "USDT" suffix; return the normalised symbol. -/
def validate_symbol (symbol : String) : Except String String :=
  if symbol = "" then Except.error "Symbol cannot be empty"
  else if pyEndsWith (pyStrip (pyUpper symbol)) "USDT" then
    Except.ok (pyStrip (pyUpper symbol))
  else Except.error "Symbol must end with USDT for USDT-M Futures"

/-- BasicBot validate quantity: reject values that are not strictly
positive, pass the value through unchanged otherwise. -/
def validate_quantity (quantity : ℚ) : Except String ℚ :=
  if quantity ≤ 0 then Except.error "Quantity must be greater than 0"
  else Except.ok quantity

/-- BasicBot validate price: reject values that are not strictly
positive, pass the value through unchanged otherwise. -/
def validate_price (price : ℚ) : Except String ℚ :=
  if price ≤ 0 then Except.error "Price must be greater than 0"
  else Except.ok price

/-- BasicBot validate side: uppercase and strip, then require exactly
BUY or SELL. -/
def validate_side (side : String) : Except String String :=
  let side := pyStrip (pyUpper side)
  if side = "BUY" ∨ side = "SELL" then Except.ok side
  else Except.error "Side must be either \x27BUY\x27 or \x27SELL\x27"

/-- Python truthiness of an optional string: None and the empty string
are falsy. -/
def truthy : Option String → Bool
  | Option.none => false
  | some s => !(s == "")

/-- Python `a or b` on optional strings: `b` when `a` is falsy. -/
def pyOr (a b : Option String) : Option String :=
  if truthy a then a else b

/-- The error message raised by the constructor when live-mode
credentials are missing. -/
def credentialsErrorMsg : String :=
  "API credentials are required. Set BINANCE_API_KEY and BINANCE_API_SECRET environment variables or pass them as parameters."

/-- The state a constructed BasicBot instance carries (the live client
itself is passed to each operation as a `Backend` oracle). -/
structure Bot where
  demo : Bool
  api_key : Option String
  api_secret : Option String

/-- The demo-mode instance: no credentials, no client. -/
def demoBot : Bot :=
  { demo := true, api_key := Option.none, api_secret := Option.none }

/-- BasicBot constructor: in demo mode succeed with no credentials; in
live mode resolve each credential as parameter-or-environment and raise
ValueError when either resolves falsy. `env_key` and `env_secret` model
`os.getenv` for the two variables. -/
def mkBot (api_key api_secret : Option String) (demo : Bool)
    (env_key env_secret : Option String) : Except String Bot :=
  if demo then
    Except.ok demoBot
  else
    let k := pyOr api_key env_key
    let s := pyOr api_secret env_secret
    if !(truthy k) || !(truthy s) then Except.error credentialsErrorMsg
    else Except.ok { demo := false, api_key := k, api_secret := s }

/-- A live client call: takes the request parameter dict, returns the
raw response payload, or fails like a raised provider or transport
exception (with the exception message). -/
abbrev Backend := Entries → Except String Entries

/-- A backend that always raises; stands in for an absent live client in
closed demo-mode statements (demo mode never consults the backend). -/
def nullBackend : Backend := fun _ => Except.error "no live connection"

/-- The dict built by every `except` clause of the operation methods:
status ERROR, the stringified exception, and a fresh timestamp. -/
def errorResult (e now : String) : Entries :=
  pyDict [("status", Value.str "ERROR"),
          ("error", Value.str e),
          ("timestamp", Value.str now)]

/-- The canned demo response of place_market_order. -/
def demoMarketResponse : Entries :=
  pyDict [("orderId", Value.int 123456),
          ("clientOrderId", Value.str "demo123"),
          ("avgPrice", Value.str "50000.00"),
          ("status", Value.str "FILLED")]

/-- The canned demo response of place_limit_order. -/
def demoLimitResponse : Entries :=
  pyDict [("orderId", Value.int 234567),
          ("clientOrderId", Value.str "demoLimit"),
          ("status", Value.str "NEW")]

/-- The canned demo response of place_stop_market_order. -/
def demoStopResponse : Entries :=
  pyDict [("orderId", Value.int 345678),
          ("clientOrderId", Value.str "demoStop"),
          ("status", Value.str "NEW")]

/-- The canned demo response of place_oco_order. -/
def demoOcoResponse : Entries :=
  pyDict [("orderListId", Value.int 456789),
          ("contingencyType", Value.str "OCO"),
          ("listStatusType", Value.str "RESPONSE"),
          ("listOrderStatus", Value.str "EXEC_STARTED"),
          ("listClientOrderId", Value.str "demoOCO")]

/-- The canned demo response of get_account_info. -/
def demoAccountResponse : Entries :=
  pyDict [("totalWalletBalance", Value.str "10000.00"),
          ("totalUnrealizedProfit", Value.str "0.00"),
          ("assets", Value.vlist
            [Value.dict (pyDict
              [("asset", Value.str "USDT"),
               ("walletBalance", Value.str "10000.00"),
               ("unrealizedProfit", Value.str "0.00")])])]

/-- The canned demo response of get_order_status: echoes the requested
order id and symbol. -/
def demoOrderStatusResponse (order_id : Int) (symbol : String) : Entries :=
  pyDict [("orderId", Value.int order_id),
          ("symbol", Value.str symbol),
          ("status", Value.str "FILLED"),
          ("price", Value.str "50000.00"),
          ("avgPrice", Value.str "50000.00"),
          ("executedQty", Value.str "0.001")]

/-- BasicBot.place_market_order: validate, dispatch (canned response in
demo mode, live client otherwise), and format; every raised exception is
caught and becomes `errorResult`. The formatted dict literal writes the
key "status" twice, so `pyDict` keeps the later, remote value. -/
def place_market_order (bot : Bot) (backend : Backend)
    (now symbol side : String) (quantity : ℚ) : Entries :=
  match validate_symbol symbol with
  | Except.error e => errorResult e now
  | Except.ok symbol =>
  match validate_side side with
  | Except.error e => errorResult e now
  | Except.ok side =>
  match validate_quantity quantity with
  | Except.error e => errorResult e now
  | Except.ok quantity =>
  match (if bot.demo then Except.ok demoMarketResponse
         else backend (pyDict
           [("symbol", Value.str symbol),
            ("side", Value.str side),
            ("type", Value.str "MARKET"),
            ("quantity", Value.rat quantity)])) with
  | Except.error e => errorResult e now
  | Except.ok response =>
      pyDict [("status", Value.str "SUCCESS"),
              ("order_type", Value.str "MARKET"),
              ("symbol", Value.str symbol),
              ("side", Value.str side),
              ("quantity", Value.rat quantity),
              ("order_id", dictGet response "orderId"),
              ("client_order_id", dictGet response "clientOrderId"),
              ("price", dictGetD response "avgPrice" (Value.str "N/A")),
              ("status", dictGet response "status"),
              ("timestamp", Value.str now),
              ("raw_response", Value.dict response)]

/-- BasicBot.place_limit_order; as for the market order, the formatted
dict literal writes "status" twice and the remote value survives. -/
def place_limit_order (bot : Bot) (backend : Backend)
    (now symbol side : String) (quantity price : ℚ) : Entries :=
  match validate_symbol symbol with
  | Except.error e => errorResult e now
  | Except.ok symbol =>
  match validate_side side with
  | Except.error e => errorResult e now
  | Except.ok side =>
  match validate_quantity quantity with
  | Except.error e => errorResult e now
  | Except.ok quantity =>
  match validate_price price with
  | Except.error e => errorResult e now
  | Except.ok price =>
  match (if bot.demo then Except.ok demoLimitResponse
         else backend (pyDict
           [("symbol", Value.str symbol),
            ("side", Value.str side),
            ("type", Value.str "LIMIT"),
            ("timeInForce", Value.str "GTC"),
            ("quantity", Value.rat quantity),
            ("price", Value.rat price)])) with
  | Except.error e => errorResult e now
  | Except.ok response =>
      pyDict [("status", Value.str "SUCCESS"),
              ("order_type", Value.str "LIMIT"),
              ("symbol", Value.str symbol),
              ("side", Value.str side),
              ("quantity", Value.rat quantity),
              ("price", Value.rat price),
              ("order_id", dictGet response "orderId"),
              ("client_order_id", dictGet response "clientOrderId"),
              ("status", dictGet response "status"),
              ("timestamp", Value.str now),
              ("raw_response", Value.dict response)]

/-- BasicBot.place_stop_market_order; the stop price is validated with
validate_price, and the duplicate "status" key behaves as above. -/
def place_stop_market_order (bot : Bot) (backend : Backend)
    (now symbol side : String) (quantity stop_price : ℚ) : Entries :=
  match validate_symbol symbol with
  | Except.error e => errorResult e now
  | Except.ok symbol =>
  match validate_side side with
  | Except.error e => errorResult e now
  | Except.ok side =>
  match validate_quantity quantity with
  | Except.error e => errorResult e now
  | Except.ok quantity =>
  match validate_price stop_price with
  | Except.error e => errorResult e now
  | Except.ok stop_price =>
  match (if bot.demo then Except.ok demoStopResponse
         else backend (pyDict
           [("symbol", Value.str symbol),
            ("side", Value.str side),
            ("type", Value.str "STOP_MARKET"),
            ("quantity", Value.rat quantity),
            ("stopPrice", Value.rat stop_price)])) with
  | Except.error e => errorResult e now
  | Except.ok response =>
      pyDict [("status", Value.str "SUCCESS"),
              ("order_type", Value.str "STOP_MARKET"),
              ("symbol", Value.str symbol),
              ("side", Value.str side),
              ("quantity", Value.rat quantity),
              ("stop_price", Value.rat stop_price),
              ("order_id", dictGet response "orderId"),
              ("client_order_id", dictGet response "clientOrderId"),
              ("status", dictGet response "status"),
              ("timestamp", Value.str now),
              ("raw_response", Value.dict response)]

/-- BasicBot.place_oco_order: the three prices are validated positive
with validate_price and no check relates their ordering to the side; the
formatted dict has a single "status" key holding SUCCESS. -/
def place_oco_order (bot : Bot) (backend : Backend)
    (now symbol side : String)
    (quantity limit_price stop_price stop_limit_price : ℚ) : Entries :=
  match validate_symbol symbol with
  | Except.error e => errorResult e now
  | Except.ok symbol =>
  match validate_side side with
  | Except.error e => errorResult e now
  | Except.ok side =>
  match validate_quantity quantity with
  | Except.error e => errorResult e now
  | Except.ok quantity =>
  match validate_price limit_price with
  | Except.error e => errorResult e now
  | Except.ok limit_price =>
  match validate_price stop_price with
  | Except.error e => errorResult e now
  | Except.ok stop_price =>
  match validate_price stop_limit_price with
  | Except.error e => errorResult e now
  | Except.ok stop_limit_price =>
  match (if bot.demo then Except.ok demoOcoResponse
         else backend (pyDict
           [("symbol", Value.str symbol),
            ("side", Value.str side),
            ("quantity", Value.rat quantity),
            ("price", Value.rat limit_price),
            ("stopPrice", Value.rat stop_price),
            ("stopLimitPrice", Value.rat stop_limit_price),
            ("stopLimitTimeInForce", Value.str "GTC")])) with
  | Except.error e => errorResult e now
  | Except.ok response =>
      pyDict [("status", Value.str "SUCCESS"),
              ("order_type", Value.str "OCO"),
              ("symbol", Value.str symbol),
              ("side", Value.str side),
              ("quantity", Value.rat quantity),
              ("limit_price", Value.rat limit_price),
              ("stop_price", Value.rat stop_price),
              ("stop_limit_price", Value.rat stop_limit_price),
              ("order_list_id", dictGet response "orderListId"),
              ("contingency_type", dictGet response "contingencyType"),
              ("list_status_type", dictGet response "listStatusType"),
              ("list_order_status", dictGet response "listOrderStatus"),
              ("timestamp", Value.str now),
              ("raw_response", Value.dict response)]

/-- BasicBot.get_account_info: no validation; demo mode returns the
canned snapshot, live mode consults the client (with no parameters,
modelled as an empty dict). -/
def get_account_info (bot : Bot) (backend : Backend) (now : String) : Entries :=
  match (if bot.demo then Except.ok demoAccountResponse
         else backend (pyDict [])) with
  | Except.error e => errorResult e now
  | Except.ok response =>
      pyDict [("status", Value.str "SUCCESS"),
              ("account_info", Value.dict response),
              ("timestamp", Value.str now)]

/-- BasicBot.get_order_status: only the symbol is validated; the order
id flows to the backend (or into the canned response) untouched. -/
def get_order_status (bot : Bot) (backend : Backend)
    (now symbol : String) (order_id : Int) : Entries :=
  match validate_symbol symbol with
  | Except.error e => errorResult e now
  | Except.ok symbol =>
  match (if bot.demo then Except.ok (demoOrderStatusResponse order_id symbol)
         else backend (pyDict
           [("symbol", Value.str symbol),
            ("orderId", Value.int order_id)])) with
  | Except.error e => errorResult e now
  | Except.ok response =>
      pyDict [("status", Value.str "SUCCESS"),
              ("order_status", Value.dict response),
              ("timestamp", Value.str now)]

/-- A result stripped of its top-level timestamp entry (no nested dict
of any operation result contains a timestamp). -/
def exceptTimestamp (d : Entries) : Entries :=
  d.filter (fun kv => kv.1 != "timestamp")

/-- The number of entries of a dict carrying a given key. -/
def countKey (d : Entries) (k : String) : Nat :=
  (d.filter (fun kv => kv.1 == k)).length

lemma ne_empty_of_pyEndsWith_USDT {t : String}
    (h : pyEndsWith t "USDT" = true) : t ≠ "" := by
  intro he
  subst he
  exact absurd h (by decide)

/-- C4: symbol validation succeeds exactly when the stripped uppercase
form of the input is non-empty and ends in USDT, and then returns
exactly that form; " btcusdt " normalises to "BTCUSDT" while "BTCUSD"
and the empty string are rejected. -/
theorem validate_symbol_spec (s : String) :
    (∀ t, validate_symbol s = Except.ok t → t = pyStrip (pyUpper s)) ∧
    (validate_symbol s = Except.ok (pyStrip (pyUpper s)) ↔
      pyStrip (pyUpper s) ≠ "" ∧ pyEndsWith (pyStrip (pyUpper s)) "USDT" = true) ∧
    validate_symbol " btcusdt " = Except.ok "BTCUSDT" ∧
    validate_symbol "BTCUSD" =
      Except.error "Symbol must end with USDT for USDT-M Futures" ∧
    validate_symbol "" = Except.error "Symbol cannot be empty" := by
  refine ⟨?_, ⟨?_, ?_⟩, rfl, rfl, rfl⟩
  · intro t ht
    unfold validate_symbol at ht
    split at ht
    · cases ht
    · split at ht
      · cases ht
        rfl
      · cases ht
  · intro ht
    unfold validate_symbol at ht
    split at ht
    · cases ht
    · split at ht
      · next he => exact ⟨ne_empty_of_pyEndsWith_USDT he, he⟩
      · cases ht
  · intro hc
    unfold validate_symbol
    split
    · next hs =>
        subst hs
        exact absurd rfl hc.1
    · split
      · rfl
      · next hnend => exact absurd hc.2 hnend

/-- C4 witness: the backward direction of the characterisation at the
concrete input ethusdt. -/
theorem validate_symbol_spec_witness :
    validate_symbol "ethusdt" = Except.ok (pyStrip (pyUpper "ethusdt")) :=
  ((validate_symbol_spec "ethusdt").2.1).mpr ⟨by decide, by decide⟩

/-- C6: quantity and price validation succeed exactly on strictly
positive values and pass the value through unchanged. -/
theorem validate_positive_spec (q : ℚ) :
    ((∃ x, validate_quantity q = Except.ok x) ↔ 0 < q) ∧
    ((∃ x, validate_price q = Except.ok x) ↔ 0 < q) ∧
    (∀ x, validate_quantity q = Except.ok x → x = q) ∧
    (∀ x, validate_price q = Except.ok x → x = q) := by
  unfold validate_quantity validate_price
  rcases le_or_lt q 0 with h | h
  · simp [h, not_lt.mpr h]
  · simp [h, not_le.mpr h]

/-- C6 witness: the arbitrarily small positive value 0.001 passes
quantity validation. -/
theorem validate_positive_spec_witness :
    (0 : ℚ) < mkRat 1 1000 ∧
    (∃ x, validate_quantity (mkRat 1 1000) = Except.ok x) :=
  ⟨by decide, ((validate_positive_spec (mkRat 1 1000)).1).mpr (by decide)⟩

/-- C1: the demo-mode market order for btcusdt, buy, 0.001 does return
order_type MARKET, symbol BTCUSDT, side BUY and order_id 123456, but its
single status field holds the remote string FILLED rather than SUCCESS:
the dict literal writes status twice, so the remote status overwrites
the SUCCESS tag instead of being carried as a separate field. -/
theorem market_demo_scenario_fields :
    dictGet (place_market_order demoBot nullBackend "t0" "btcusdt" "buy"
      (mkRat 1 1000)) "order_type" = Value.str "MARKET" ∧
    dictGet (place_market_order demoBot nullBackend "t0" "btcusdt" "buy"
      (mkRat 1 1000)) "symbol" = Value.str "BTCUSDT" ∧
    dictGet (place_market_order demoBot nullBackend "t0" "btcusdt" "buy"
      (mkRat 1 1000)) "side" = Value.str "BUY" ∧
    dictGet (place_market_order demoBot nullBackend "t0" "btcusdt" "buy"
      (mkRat 1 1000)) "order_id" = Value.int 123456 ∧
    dictGet (place_market_order demoBot nullBackend "t0" "btcusdt" "buy"
      (mkRat 1 1000)) "status" = Value.str "FILLED" ∧
    Value.str "FILLED" ≠ Value.str "SUCCESS" ∧
    countKey (place_market_order demoBot nullBackend "t0" "btcusdt" "buy"
      (mkRat 1 1000)) "status" = 1 :=
  ⟨rfl, rfl, rfl, rfl, rfl, by simp, rfl⟩

/-- C2: on the success path of place_limit_order the duplicate status
key leaves the remote string NEW in the status field, which is neither
SUCCESS nor ERROR, refuting the claim that every result carries a
SUCCESS-or-ERROR status tag. -/
theorem limit_demo_status_not_canonical :
    dictGet (place_limit_order demoBot nullBackend "t0" "BTCUSDT" "SELL"
      (mkRat 1 1000) 50000) "status" = Value.str "NEW" ∧
    Value.str "NEW" ≠ Value.str "SUCCESS" ∧
    Value.str "NEW" ≠ Value.str "ERROR" :=
  ⟨rfl, by simp, by simp⟩

/-- C8: the demo-mode OCO order for BTCUSDT, SELL, 0.001 with limit
50000, stop 45000 and stop-limit 44900 returns status SUCCESS,
order_list_id 456789 and contingency_type OCO. -/
theorem oco_demo_scenario :
    dictGet (place_oco_order demoBot nullBackend "t0" "BTCUSDT" "SELL"
      (mkRat 1 1000) 50000 45000 44900) "status" = Value.str "SUCCESS" ∧
    dictGet (place_oco_order demoBot nullBackend "t0" "BTCUSDT" "SELL"
      (mkRat 1 1000) 50000 45000 44900) "order_list_id" = Value.int 456789 ∧
    dictGet (place_oco_order demoBot nullBackend "t0" "BTCUSDT" "SELL"
      (mkRat 1 1000) 50000 45000 44900) "contingency_type" = Value.str "OCO" :=
  ⟨rfl, rfl, rfl⟩

/-- C5: a limit order with price 0 and otherwise valid inputs returns
the ERROR result carrying the message Price must be greater than 0, and
the outcome is independent of the backend, so no backend is invoked. -/
theorem limit_zero_price_short_circuit (bot : Bot) (b₁ b₂ : Backend)
    (now symbol side : String) (q : ℚ)
    (hsym : ∃ t, validate_symbol symbol = Except.ok t)
    (hside : ∃ t, validate_side side = Except.ok t)
    (hq : 0 < q) :
    place_limit_order bot b₁ now symbol side q 0 =
      errorResult "Price must be greater than 0" now ∧
    dictGet (place_limit_order bot b₁ now symbol side q 0) "status" =
      Value.str "ERROR" ∧
    dictGet (place_limit_order bot b₁ now symbol side q 0) "error" =
      Value.str "Price must be greater than 0" ∧
    place_limit_order bot b₁ now symbol side q 0 =
      place_limit_order bot b₂ now symbol side q 0 := by
  obtain ⟨ts, hts⟩ := hsym
  obtain ⟨sd, hsd⟩ := hside
  have hqv : validate_quantity q = Except.ok q := by
    unfold validate_quantity
    simp [not_le.mpr hq]
  unfold place_limit_order
  rw [hts, hsd, hqv]
  exact ⟨rfl, rfl, rfl, rfl⟩

/-- C5 witness at a demo bot, symbol BTCUSDT, side BUY, quantity 1 and
two different backends. -/
theorem limit_zero_price_short_circuit_witness :
    place_limit_order demoBot nullBackend "t0" "BTCUSDT" "BUY" 1 0 =
      errorResult "Price must be greater than 0" "t0" ∧
    dictGet (place_limit_order demoBot nullBackend "t0" "BTCUSDT" "BUY" 1 0)
      "status" = Value.str "ERROR" ∧
    dictGet (place_limit_order demoBot nullBackend "t0" "BTCUSDT" "BUY" 1 0)
      "error" = Value.str "Price must be greater than 0" ∧
    place_limit_order demoBot nullBackend "t0" "BTCUSDT" "BUY" 1 0 =
      place_limit_order demoBot (fun _ => Except.ok []) "t0" "BTCUSDT" "BUY" 1 0 :=
  limit_zero_price_short_circuit demoBot nullBackend (fun _ => Except.ok [])
    "t0" "BTCUSDT" "BUY" 1 ⟨"BTCUSDT", rfl⟩ ⟨"BUY", rfl⟩ one_pos

/-- C3: place_oco_order performs no check relating the ordering of the
three prices to the side: any valid symbol, valid side and strictly
positive prices in any relative order pass validation and, in demo mode,
produce a SUCCESS OCO result. -/
theorem oco_no_price_ordering_check (b : Backend) (now symbol side : String)
    (q lp sp slp : ℚ)
    (hsym : ∃ t, validate_symbol symbol = Except.ok t)
    (hside : ∃ t, validate_side side = Except.ok t)
    (hq : 0 < q) (hlp : 0 < lp) (hsp : 0 < sp) (hslp : 0 < slp) :
    dictGet (place_oco_order demoBot b now symbol side q lp sp slp) "status" =
      Value.str "SUCCESS" ∧
    dictGet (place_oco_order demoBot b now symbol side q lp sp slp)
      "order_type" = Value.str "OCO" := by
  obtain ⟨ts, hts⟩ := hsym
  obtain ⟨sd, hsd⟩ := hside
  have hqv : validate_quantity q = Except.ok q := by
    unfold validate_quantity
    simp [not_le.mpr hq]
  have hlpv : validate_price lp = Except.ok lp := by
    unfold validate_price
    simp [not_le.mpr hlp]
  have hspv : validate_price sp = Except.ok sp := by
    unfold validate_price
    simp [not_le.mpr hsp]
  have hslpv : validate_price slp = Except.ok slp := by
    unfold validate_price
    simp [not_le.mpr hslp]
  unfold place_oco_order
  rw [hts, hsd, hqv, hlpv, hspv, hslpv]
  exact ⟨rfl, rfl⟩

/-- C3 witness: a BUY whose limit price 40000 lies below its stop price
45000 still dispatches and succeeds in demo mode. -/
theorem oco_no_price_ordering_check_witness :
    dictGet (place_oco_order demoBot nullBackend "t0" "BTCUSDT" "BUY"
      1 40000 45000 44900) "status" = Value.str "SUCCESS" ∧
    dictGet (place_oco_order demoBot nullBackend "t0" "BTCUSDT" "BUY"
      1 40000 45000 44900) "order_type" = Value.str "OCO" :=
  oco_no_price_ordering_check nullBackend "t0" "BTCUSDT" "BUY" 1 40000 45000
    44900 ⟨"BTCUSDT", rfl⟩ ⟨"BUY", rfl⟩ one_pos (by norm_num) (by norm_num)
    (by norm_num)

/-- C9: demo-mode construction succeeds with no credentials at all,
while live-mode construction raises the credentials error whenever
either credential resolves falsy from parameters and environment. -/
theorem construction_credentials (pk ps ek es : Option String) :
    mkBot pk ps true ek es = Except.ok demoBot ∧
    demoBot.demo = true ∧
    (truthy (pyOr pk ek) = false ∨ truthy (pyOr ps es) = false →
      mkBot pk ps false ek es = Except.error credentialsErrorMsg) := by
  refine ⟨rfl, rfl, ?_⟩
  intro h
  unfold mkBot
  rcases h with h | h <;> simp [h]

/-- C9 witness: with no parameters and an empty environment, demo-mode
construction succeeds and live-mode construction fails. -/
theorem construction_credentials_witness :
    mkBot Option.none Option.none true Option.none Option.none =
      Except.ok demoBot ∧
    demoBot.demo = true ∧
    mkBot Option.none Option.none false Option.none Option.none =
      Except.error credentialsErrorMsg :=
  ⟨(construction_credentials Option.none Option.none Option.none
      Option.none).1,
   (construction_credentials Option.none Option.none Option.none
      Option.none).2.1,
   (construction_credentials Option.none Option.none Option.none
      Option.none).2.2 (Or.inl rfl)⟩

/-- C10: get_order_status validates only the symbol; any order id,
including zero and negative values, reaches the demo response unchanged
and the call returns status SUCCESS with that id echoed inside the order
record. -/
theorem get_order_status_no_id_validation (b : Backend) (now symbol : String)
    (order_id : Int) (t : String)
    (hsym : validate_symbol symbol = Except.ok t) :
    dictGet (get_order_status demoBot b now symbol order_id) "status" =
      Value.str "SUCCESS" ∧
    dictGet (get_order_status demoBot b now symbol order_id) "order_status" =
      Value.dict (demoOrderStatusResponse order_id t) ∧
    dictGet (demoOrderStatusResponse order_id t) "orderId" =
      Value.int order_id := by
  unfold get_order_status
  rw [hsym]
  exact ⟨rfl, rfl, rfl⟩

/-- C10 witness at symbol BTCUSDT and the negative order id -5. -/
theorem get_order_status_no_id_validation_witness :
    dictGet (get_order_status demoBot nullBackend "t0" "BTCUSDT" (-5))
      "status" = Value.str "SUCCESS" ∧
    dictGet (get_order_status demoBot nullBackend "t0" "BTCUSDT" (-5))
      "order_status" = Value.dict (demoOrderStatusResponse (-5) "BTCUSDT") ∧
    dictGet (demoOrderStatusResponse (-5) "BTCUSDT") "orderId" =
      Value.int (-5) :=
  get_order_status_no_id_validation nullBackend "t0" "BTCUSDT" (-5) "BTCUSDT"
    rfl

/-- C7: on a demo-mode gateway two calls of the same order-placement
operation with identical inputs differ at most in the timestamp field,
for the market and the OCO operation. -/
theorem normalization_idempotent_mod_timestamp (b : Backend)
    (now₁ now₂ symbol side : String) (q lp sp slp : ℚ) :
    exceptTimestamp (place_market_order demoBot b now₁ symbol side q) =
      exceptTimestamp (place_market_order demoBot b now₂ symbol side q) ∧
    exceptTimestamp (place_oco_order demoBot b now₁ symbol side q lp sp slp) =
      exceptTimestamp (place_oco_order demoBot b now₂ symbol side q lp sp slp)
    := by
  constructor
  · unfold place_market_order
    cases validate_symbol symbol <;> cases validate_side side <;>
      cases validate_quantity q <;>
      simp [demoBot, errorResult, exceptTimestamp, pyDict, setKey]
  · unfold place_oco_order
    cases validate_symbol symbol <;> cases validate_side side <;>
      cases validate_quantity q <;> cases validate_price lp <;>
      cases validate_price sp <;> cases validate_price slp <;>
      simp [demoBot, errorResult, exceptTimestamp, pyDict, setKey]

end BasicBot
